import Mathlib

/-
Verification of the MovieMatch client discovery loop.

This file gives a shallow embedding of the state and handlers of the
frontend component `MovieMatchApp` (frontend/src/components/MovieMatchApp.tsx)
and of the gesture classifier `SwipeCard.handleEnd`
(frontend/src/components/SwipeCard.tsx), and proves properties about them.

The embedding follows the TypeScript source:
  * `fetchNextMovie` is modelled as a pure transition `fetchNextMovie`
    taking the current state and the response the recommendation service
    would return for the request issued in this cycle; its output records
    the successor state, the request that was issued (if any), the backoff
    retry delay scheduled via `setTimeout` (if any) and the error message
    surfaced via `toast.error` (if any).
  * The JS `Set` `recentlyFetchedIds` preserves insertion order, so it is
    modelled as a duplicate-free `List Nat` with an order-preserving
    idempotent `setAdd`; `Array.from(set).slice(-n)` becomes
    `List.drop (len - n)`.
  * The preference vector is opaque to the client (stored and forwarded
    verbatim, never inspected), so its element type is irrelevant; it is
    modelled as `List Int`.
-/

/-- A movie record as used by the frontend (frontend/src/types/movie.ts). -/
structure Movie where
  movieId : Nat
  title : String
  poster_path : String
  overview : String
  genres : String
  release_date : String
deriving DecidableEq, Repr

/-- The three categorized lists (`UserMovieList` in the source). -/
structure UserMovieList where
  liked : List Movie
  saved : List Movie
  disliked : List Movie
deriving DecidableEq, Repr

/-- Names of the three categorized lists. -/
inductive ListName
  | liked
  | saved
  | disliked
deriving DecidableEq, Repr

/-- Project a named list out of a `UserMovieList`. -/
def getList (u : UserMovieList) : ListName → List Movie
  | .liked => u.liked
  | .saved => u.saved
  | .disliked => u.disliked

/-- Replace a named list in a `UserMovieList` (models `newLists[name] = ...`). -/
def setList (u : UserMovieList) (n : ListName) (l : List Movie) : UserMovieList :=
  match n with
  | .liked => { u with liked := l }
  | .saved => { u with saved := l }
  | .disliked => { u with disliked := l }

/-- The ids of the movies of a list, in list order. -/
def listIds (l : List Movie) : List Nat := l.map Movie.movieId

/-- Filter state (`FilterState` in Filters.tsx): selected genres, selected
languages and the year range slider value. -/
structure FilterState where
  genres : List String
  languages : List String
  yearRange : Nat × Nat
deriving DecidableEq, Repr

/-- The full allowed year range (`movieYearRange` in MovieMatchApp.tsx). -/
def movieYearRange : Nat × Nat := (1900, 2024)

/-- The optional filter parameters attached to a recommendation request
(the `filterObj` assembled inside `fetchNextMovie`). -/
structure FilterObj where
  genre : Option String
  language : Option String
  year_start : Option Nat
  year_end : Option Nat
deriving DecidableEq, Repr

/-- Assembly of `filterObj` inside `fetchNextMovie`: the first selected
genre/language when the selection is non-empty, and each year bound only
when it differs from the corresponding end of `movieYearRange`. -/
def buildFilterObj (fs : FilterState) : FilterObj :=
  { genre := if fs.genres.length > 0 then fs.genres.head? else none
    language := if fs.languages.length > 0 then fs.languages.head? else none
    year_start := if fs.yearRange.1 ≠ movieYearRange.1 then some fs.yearRange.1 else none
    year_end := if fs.yearRange.2 ≠ movieYearRange.2 then some fs.yearRange.2 else none }

/-- The component state of `MovieMatchApp` that the discovery loop touches:
`currentMovie`, `userLists`, `userVector`, `isLoading`, the ref
`recentlyFetchedIds` (insertion-ordered, duplicate-free) and the ref
`fetchAttemptCount`, plus the filter state. -/
structure AppState where
  currentMovie : Option Movie
  userLists : UserMovieList
  userVector : Option (List Int)
  isLoading : Bool
  recentlyFetchedIds : List Nat
  fetchAttemptCount : Nat
  filters : FilterState
deriving DecidableEq, Repr

/-- `maxFetchAttempts` in the source. -/
def maxFetchAttempts : Nat := 5

/-- `getAllSeenIds`: ids of `[...liked, ...saved, ...disliked]`. -/
def getAllSeenIds (s : AppState) : List Nat :=
  ((s.userLists.liked ++ s.userLists.saved) ++ s.userLists.disliked).map Movie.movieId

/-- `getLikedIds`: ids of the liked list. -/
def getLikedIds (s : AppState) : List Nat :=
  s.userLists.liked.map Movie.movieId

/-- `allExcludedIds = [...seenIds, ...recentIds]` inside `fetchNextMovie`. -/
def allExcludedIds (s : AppState) : List Nat :=
  getAllSeenIds s ++ s.recentlyFetchedIds

/-- `Set.add` on an insertion-ordered duplicate-free list: appends the
element unless it is already present. -/
def setAdd (l : List Nat) (x : Nat) : List Nat :=
  if x ∈ l then l else l ++ [x]

/-- The recommendation request sent by `MovieAPI.getRecommendation`
(`RecommendationRequest` in frontend/src/types/movie.ts, assembled in
`fetchNextMovie`). -/
structure RecommendationRequest where
  user_vector : Option (List Int)
  seen_ids : List Nat
  liked_ids : List Nat
  genre : Option String
  language : Option String
  year_start : Option Nat
  year_end : Option Nat
deriving DecidableEq, Repr

/-- The request `fetchNextMovie` issues from state `s`. -/
def buildRequest (s : AppState) : RecommendationRequest :=
  { user_vector := s.userVector
    seen_ids := allExcludedIds s
    liked_ids := getLikedIds s
    genre := (buildFilterObj s.filters).genre
    language := (buildFilterObj s.filters).language
    year_start := (buildFilterObj s.filters).year_start
    year_end := (buildFilterObj s.filters).year_end }

/-- The possible outcomes of the awaited `MovieAPI.getRecommendation` call:
a response with an `error` field, a response with a `movie` (and optionally
an updated `user_vector`), a response with neither, or a thrown transport
error (the `catch` branch). -/
inductive Response
  | ok (movie : Movie) (user_vector : Option (List Int))
  | err (msg : String)
  | blank
  | transportFailure
deriving DecidableEq, Repr

/-- The message passed to `toast.error` in the `catch` branch. -/
def transportErrorMessage : String :=
  "Failed to fetch movie recommendation. Please check your connection and try again."

/-- Result of one `fetchNextMovie` invocation: the new component state, the
request issued to the recommendation service (`none` when the call returned
before issuing one), the backoff delay scheduled via `setTimeout` (`none`
when no automatic retry was scheduled) and the error message surfaced via
`toast.error` (if any). -/
structure FetchOut where
  state : AppState
  request : Option RecommendationRequest
  retryDelay : Option Nat
  surfacedError : Option String
deriving DecidableEq, Repr

/-- One invocation of `fetchNextMovie`, given the response `resp` the
recommendation service would produce for the request of this cycle.
Mirrors the source line by line: the `isLoading` single-flight guard, the
`fetchAttemptCount >= maxFetchAttempts` guard (clear cache, reset counter,
clear movie), the `response.error` branch, the duplicate branch (add the
offending id, bump the counter, abort at the budget or schedule
`min(200 * 2^(count-1), 2000)` ms), the acceptance branch (add the id, trim
the cache to the last 50 when above 50, reset the counter, display the
movie, adopt a returned user vector) and the `catch` branch. -/
def fetchNextMovie (s : AppState) (resp : Response) : FetchOut :=
  if s.isLoading then
    ⟨s, none, none, none⟩
  else if s.fetchAttemptCount ≥ maxFetchAttempts then
    ⟨{ s with recentlyFetchedIds := [], fetchAttemptCount := 0,
               currentMovie := none, isLoading := false }, none, none, none⟩
  else
    let req := buildRequest s
    match resp with
    | .err msg =>
        ⟨{ s with currentMovie := none, fetchAttemptCount := 0, isLoading := false },
          some req, none, some msg⟩
    | .ok m uv =>
        if m.movieId ∈ allExcludedIds s then
          let s1 : AppState :=
            { s with recentlyFetchedIds := setAdd s.recentlyFetchedIds m.movieId,
                     fetchAttemptCount := s.fetchAttemptCount + 1, isLoading := false }
          if s1.fetchAttemptCount ≥ maxFetchAttempts then
            ⟨{ s1 with currentMovie := none }, some req, none, none⟩
          else
            ⟨s1, some req,
              some (min (200 * 2 ^ (s1.fetchAttemptCount - 1)) 2000), none⟩
        else
          let w := setAdd s.recentlyFetchedIds m.movieId
          let w2 := if w.length > 50 then w.drop (w.length - 50) else w
          ⟨{ s with recentlyFetchedIds := w2, fetchAttemptCount := 0,
                    currentMovie := some m,
                    userVector := match uv with
                                  | some v => some v
                                  | none => s.userVector,
                    isLoading := false }, some req, none, none⟩
    | .blank =>
        ⟨{ s with isLoading := false }, some req, none, none⟩
    | .transportFailure =>
        ⟨{ s with currentMovie := none, fetchAttemptCount := 0, isLoading := false },
          some req, none, some transportErrorMessage⟩

/-- The four user actions accepted by `handleAction`. -/
inductive SwipeAct
  | like
  | dislike
  | skip
  | save
deriving DecidableEq, Repr

/-- A feedback submission (`MovieAPI.submitFeedback` payload). -/
structure FeedbackRequest where
  user_vector : Option (List Int)
  movie_id : Nat
  feedback : SwipeAct
deriving DecidableEq, Repr

/-- The synchronous part of `handleAction`: the guard
(`!currentMovie || isLoading`), clearing the current movie, appending the
processed movie to the list selected by the action, and the periodic cache
trim (`size > 30` keeps only the last 15). Returns the new state, whether a
follow-up `fetchNextMovie` was triggered, and the feedback submission
issued for `like`/`dislike` (none for `skip`/`save`). -/
def handleAction (s : AppState) (a : SwipeAct) : AppState × Bool × Option FeedbackRequest :=
  match s.currentMovie with
  | none => (s, false, none)
  | some mv =>
    if s.isLoading then (s, false, none)
    else
      let lists :=
        match a with
        | .like => { s.userLists with liked := s.userLists.liked ++ [mv] }
        | .dislike => { s.userLists with disliked := s.userLists.disliked ++ [mv] }
        | .save => { s.userLists with saved := s.userLists.saved ++ [mv] }
        | .skip => s.userLists
      let w :=
        if s.recentlyFetchedIds.length > 30 then
          s.recentlyFetchedIds.drop (s.recentlyFetchedIds.length - 15)
        else s.recentlyFetchedIds
      let fb : Option FeedbackRequest :=
        match a with
        | .like => some ⟨s.userVector, mv.movieId, a⟩
        | .dislike => some ⟨s.userVector, mv.movieId, a⟩
        | .skip => none
        | .save => none
      ({ s with currentMovie := none, userLists := lists, recentlyFetchedIds := w },
        true, fb)

/-- `handleMoveMovie` restricted to the list record: remove the id from the
source list, then append the movie to the target list only when no movie
with that id is already there. The duplicate check runs on the already
updated record, exactly as in the source. -/
def handleMoveMovie (u : UserMovieList) (mv : Movie) (src tgt : ListName) : UserMovieList :=
  let u1 := setList u src ((getList u src).filter fun m => m.movieId != mv.movieId)
  if (getList u1 tgt).any (fun m => m.movieId == mv.movieId) then u1
  else setList u1 tgt (getList u1 tgt ++ [mv])

/-- `handleRemoveMovie`: filter the id out of the named list. -/
def handleRemoveMovie (u : UserMovieList) (mv : Movie) (src : ListName) : UserMovieList :=
  setList u src ((getList u src).filter fun m => m.movieId != mv.movieId)

/-- `resetMovies`: clear the current movie and the user vector, empty the
recently-fetched cache, reset the attempt counter, restore the default
filters (empty selections, full year range) and trigger a fetch. The
boolean records that a new `fetchNextMovie` cycle is initiated. -/
def resetMovies (s : AppState) : AppState × Bool :=
  ({ s with currentMovie := none, userVector := none, recentlyFetchedIds := [],
            fetchAttemptCount := 0,
            filters := { genres := [], languages := [], yearRange := movieYearRange } },
    true)

/-- The initial component state of `MovieMatchApp`. -/
def initialState : AppState :=
  { currentMovie := none
    userLists := ⟨[], [], []⟩
    userVector := none
    isLoading := false
    recentlyFetchedIds := []
    fetchAttemptCount := 0
    filters := { genres := [], languages := [], yearRange := (1990, 2024) } }

/-- The events a discovery session is built from: a completed fetch cycle
(with the service's response), a user classification action, a move between
lists, a removal, and the explicit reset. -/
inductive Event
  | fetch (resp : Response)
  | act (a : SwipeAct)
  | move (mv : Movie) (src tgt : ListName)
  | remove (mv : Movie) (src : ListName)
  | reset
deriving DecidableEq, Repr

/-- Apply one event to the state. -/
def step (s : AppState) (e : Event) : AppState :=
  match e with
  | .fetch r => (fetchNextMovie s r).state
  | .act a => (handleAction s a).1
  | .move mv src tgt => { s with userLists := handleMoveMovie s.userLists mv src tgt }
  | .remove mv src => { s with userLists := handleRemoveMovie s.userLists mv src }
  | .reset => (resetMovies s).1

/-- Run a list of events from a state. -/
def run (s : AppState) (es : List Event) : AppState := es.foldl step s

/-- Drive the duplicate-retry loop: perform a fetch cycle; while a backoff
retry is scheduled, the timer fires and `fetchNextMovie` runs again against
the same server behaviour. Returns the final state, the list of scheduled
backoff delays, and the number of requests actually issued. Fuel bounds the
recursion. -/
def runRetry : Nat → AppState → Response → AppState × List Nat × Nat
  | 0, s, _ => (s, [], 0)
  | fuel + 1, s, r =>
      let o := fetchNextMovie s r
      let c : Nat := if o.request.isSome then 1 else 0
      match o.retryDelay with
      | none => (o.state, [], c)
      | some d =>
          let t := runRetry fuel o.state r
          (t.1, d :: t.2.1, c + t.2.2)

/-- The gesture outcomes of `SwipeCard.handleEnd`. -/
inductive SwipeDecision
  | save
  | like
  | dislike
  | none
deriving DecidableEq, Repr

/-- `SwipeCard.handleEnd`: classify the release displacement. Swipe up
(`translateY < -verticalThreshold` with `|translateX| < threshold`) wins
first, then right (`> threshold`), then left (`< -threshold`), else no
action; the card position is reset to the origin in every case. -/
def handleEnd (translateX translateY : Int) : SwipeDecision :=
  let threshold : Int := 120
  let verticalThreshold : Int := 100
  if translateY < -verticalThreshold ∧ |translateX| < threshold then .save
  else if translateX > threshold then .like
  else if translateX < -threshold then .dislike
  else .none

/-! ### Basic facts about the cache primitive -/

/-- Adding an id puts it in the cache. -/
theorem mem_setAdd_self (l : List Nat) (x : Nat) : x ∈ setAdd l x := by
  by_cases h : x ∈ l <;> simp [setAdd, h]

/-- Adding an already-present id leaves the cache unchanged. -/
theorem setAdd_of_mem {l : List Nat} {x : Nat} (h : x ∈ l) : setAdd l x = l := by
  simp [setAdd, h]

/-- Membership of the recently-fetched cache implies membership of the
exclusion set. -/
theorem mem_allExcludedIds_of_recent {s : AppState} {x : Nat}
    (h : x ∈ s.recentlyFetchedIds) : x ∈ allExcludedIds s := by
  simp [allExcludedIds]
  exact Or.inr h

/-! ### Claim C4: gesture classification -/

/-- Claim C4, counterexample: at the boundary displacement Δx = 0,
Δy = −100 the claim requires `save` (`Δy ≤ −100` and `|Δx| < 120`), but
`handleEnd` requires strictly `Δy < −100` and classifies it as no action. -/
theorem handleEnd_boundary_concrete :
    handleEnd 0 (-100) = SwipeDecision.none ∧
    SwipeDecision.none ≠ SwipeDecision.save := by
  decide

/-- Claim C4 (amended): gesture classification applies the priority order
with first match winning, with a strict vertical threshold: Δy < −100 and
|Δx| < 120 yields save; else Δx > 120 yields like; else Δx < −120 yields
dislike; else no action. In particular Δx=+130, Δy=0 gives like;
Δx=−130, Δy=0 gives dislike; Δx=20, Δy=−110 gives save; Δx=50, Δy=30 gives
none. -/
theorem handleEnd_classification (tx ty : Int) :
    (handleEnd tx ty = SwipeDecision.save ↔ ty < -100 ∧ |tx| < 120) ∧
    (handleEnd tx ty = SwipeDecision.like ↔ ¬(ty < -100 ∧ |tx| < 120) ∧ tx > 120) ∧
    (handleEnd tx ty = SwipeDecision.dislike ↔
      ¬(ty < -100 ∧ |tx| < 120) ∧ ¬(tx > 120) ∧ tx < -120) ∧
    (handleEnd tx ty = SwipeDecision.none ↔
      ¬(ty < -100 ∧ |tx| < 120) ∧ ¬(tx > 120) ∧ ¬(tx < -120)) ∧
    handleEnd 130 0 = SwipeDecision.like ∧
    handleEnd (-130) 0 = SwipeDecision.dislike ∧
    handleEnd 20 (-110) = SwipeDecision.save ∧
    handleEnd 50 30 = SwipeDecision.none := by
  refine ⟨?_, ?_, ?_, ?_, by decide, by decide, by decide, by decide⟩ <;>
  · simp only [handleEnd]
    split_ifs with h1 h2 h3 <;> simp_all

/-! ### Claim C8: filter parameters of the assembled request -/

/-- Claim C8: the assembled recommendation request carries at most one
genre and one language — the first element of each selected subset when
non-empty, no value when empty — and carries a year bound only when it
differs from the corresponding end of the full allowed range [1900, 2024]. -/
theorem buildFilterObj_request_params (s : AppState) :
    (buildRequest s).genre = s.filters.genres.head? ∧
    (buildRequest s).language = s.filters.languages.head? ∧
    (buildRequest s).year_start =
      (if s.filters.yearRange.1 = 1900 then none else some s.filters.yearRange.1) ∧
    (buildRequest s).year_end =
      (if s.filters.yearRange.2 = 2024 then none else some s.filters.yearRange.2) := by
  refine ⟨?_, ?_, ?_, ?_⟩
  · cases h : s.filters.genres <;> simp [buildRequest, buildFilterObj, h]
  · cases h : s.filters.languages <;> simp [buildRequest, buildFilterObj, h]
  · by_cases h : s.filters.yearRange.1 = 1900 <;>
      simp [buildRequest, buildFilterObj, movieYearRange, h]
  · by_cases h : s.filters.yearRange.2 = 2024 <;>
      simp [buildRequest, buildFilterObj, movieYearRange, h]

/-! ### Claim C9: the classification handler guard -/

/-- Claim C9: invoking `handleAction` with no displayed candidate or while
a fetch is in progress is a complete no-op — the state (lists, cache,
attempt counter, preference vector, candidate) is unchanged, no follow-up
fetch is triggered and no feedback submission is issued. -/
theorem handleAction_noop_guard (s : AppState) (a : SwipeAct)
    (h : s.currentMovie = none ∨ s.isLoading = true) :
    handleAction s a = (s, false, none) := by
  rcases h with h | h
  · simp [handleAction, h]
  · cases hc : s.currentMovie
    · simp [handleAction, hc]
    · simp [handleAction, hc, h]

/-- Witness for the guard theorem at the initial state. -/
theorem handleAction_noop_guard_witness :
    handleAction initialState SwipeAct.like = (initialState, false, none) :=
  handleAction_noop_guard initialState SwipeAct.like (Or.inl rfl)

/-! ### Claim C10: the explicit reset action -/

/-- Claim C10: the explicit user reset clears the displayed candidate,
empties the rolling exclusion window, resets the attempt counter to 0,
clears the stored preference vector, resets the filter criteria to empty
genre and language subsets and the full year range [1900, 2024], leaves
the categorized lists untouched, and initiates a new fetch. -/
theorem resetMovies_spec (s : AppState) :
    (resetMovies s).1.currentMovie = none ∧
    (resetMovies s).1.userVector = none ∧
    (resetMovies s).1.recentlyFetchedIds = [] ∧
    (resetMovies s).1.fetchAttemptCount = 0 ∧
    (resetMovies s).1.filters.genres = [] ∧
    (resetMovies s).1.filters.languages = [] ∧
    (resetMovies s).1.filters.yearRange = (1900, 2024) ∧
    (resetMovies s).1.userLists = s.userLists ∧
    (resetMovies s).2 = true := by
  simp [resetMovies, movieYearRange]

/-! ### Claim C6: transport and server-reported errors -/

/-- Claim C6: on a response carrying an explicit error field, and on a
transport error, `fetchNextMovie` clears the displayed candidate, resets
the attempt counter to 0, surfaces the error to the user, schedules no
automatic retry, and leaves the categorized lists and the rolling
exclusion window unchanged. The hypotheses state that a request was
actually in flight: no other fetch running and the attempt budget not yet
exhausted. -/
theorem fetchNextMovie_error_handling (s : AppState) (msg : String)
    (h1 : s.isLoading = false) (h2 : s.fetchAttemptCount < maxFetchAttempts) :
    ((fetchNextMovie s (.err msg)).state.currentMovie = none ∧
     (fetchNextMovie s (.err msg)).state.fetchAttemptCount = 0 ∧
     (fetchNextMovie s (.err msg)).surfacedError = some msg ∧
     (fetchNextMovie s (.err msg)).retryDelay = none ∧
     (fetchNextMovie s (.err msg)).state.userLists = s.userLists ∧
     (fetchNextMovie s (.err msg)).state.recentlyFetchedIds = s.recentlyFetchedIds) ∧
    ((fetchNextMovie s .transportFailure).state.currentMovie = none ∧
     (fetchNextMovie s .transportFailure).state.fetchAttemptCount = 0 ∧
     (fetchNextMovie s .transportFailure).surfacedError = some transportErrorMessage ∧
     (fetchNextMovie s .transportFailure).retryDelay = none ∧
     (fetchNextMovie s .transportFailure).state.userLists = s.userLists ∧
     (fetchNextMovie s .transportFailure).state.recentlyFetchedIds = s.recentlyFetchedIds) := by
  have hg : ¬ (s.fetchAttemptCount ≥ maxFetchAttempts) := by omega
  simp [fetchNextMovie, h1, hg]

/-- Witness for the error-handling theorem at the initial state. -/
theorem fetchNextMovie_error_handling_witness :
    (fetchNextMovie initialState (.err "oops")).state.currentMovie = none ∧
    (fetchNextMovie initialState .transportFailure).surfacedError =
      some transportErrorMessage :=
  ⟨(fetchNextMovie_error_handling initialState "oops" rfl (by decide)).1.1,
   (fetchNextMovie_error_handling initialState "oops" rfl (by decide)).2.2.2.1⟩

/-! ### List membership helpers -/

/-- Reading any list of `setList u n l`. -/
theorem getList_setList (u : UserMovieList) (n m : ListName) (l : List Movie) :
    getList (setList u n l) m = if n = m then l else getList u m := by
  cases n <;> cases m <;> simp [getList, setList]

/-- `List.any` with an id test decides membership in `listIds`. -/
theorem any_eq_mem_listIds (l : List Movie) (x : Nat) :
    (l.any fun m => m.movieId == x) = true ↔ x ∈ listIds l := by
  simp [List.any_eq_true, listIds, List.mem_map, beq_iff_eq]

/-- Membership of `listIds` after filtering an id out. -/
theorem mem_listIds_filter (l : List Movie) (x i : Nat) :
    i ∈ listIds (l.filter fun m => m.movieId != x) ↔ i ∈ listIds l ∧ i ≠ x := by
  simp only [listIds]
  constructor
  · intro h
    rcases List.mem_map.1 h with ⟨m, hm, rfl⟩
    rcases List.mem_filter.1 hm with ⟨hml, hb⟩
    exact ⟨List.mem_map.2 ⟨m, hml, rfl⟩, by simpa [bne_iff_ne] using hb⟩
  · rintro ⟨h, hne⟩
    rcases List.mem_map.1 h with ⟨m, hm, rfl⟩
    exact List.mem_map.2 ⟨m, List.mem_filter.2 ⟨hm, by simpa [bne_iff_ne] using hne⟩, rfl⟩

/-- Membership of `listIds` after appending one movie. -/
theorem mem_listIds_append (l : List Movie) (mv : Movie) (i : Nat) :
    i ∈ listIds (l ++ [mv]) ↔ i ∈ listIds l ∨ i = mv.movieId := by
  simp [listIds, List.mem_append, eq_comm]

/-- Filtering an absent id out of a list changes nothing. -/
theorem filter_id_of_not_mem {l : List Movie} {x : Nat} (h : x ∉ listIds l) :
    (l.filter fun m => m.movieId != x) = l := by
  apply List.filter_eq_self.2
  intro m hm
  simp only [bne_iff_ne, ne_eq, decide_eq_true_eq]
  intro heq
  exact h (List.mem_map.2 ⟨m, hm, heq⟩)

/-- A movie of a concrete id with empty metadata, used in concrete runs. -/
def mkMovie (i : Nat) : Movie := ⟨i, "", "", "", "", ""⟩

/-! ### Claim C7: `handleMoveMovie` -/

/-- Branch-resolved form of `handleMoveMovie`: the duplicate test on the
already updated record is a membership test on `listIds`. -/
theorem handleMoveMovie_def (u : UserMovieList) (mv : Movie) (src tgt : ListName) :
    handleMoveMovie u mv src tgt =
      (if mv.movieId ∈ listIds
            (getList (setList u src ((getList u src).filter fun m => m.movieId != mv.movieId)) tgt)
       then setList u src ((getList u src).filter fun m => m.movieId != mv.movieId)
       else setList (setList u src ((getList u src).filter fun m => m.movieId != mv.movieId)) tgt
              (getList (setList u src ((getList u src).filter fun m => m.movieId != mv.movieId)) tgt
                ++ [mv])) := by
  simp only [handleMoveMovie]
  by_cases h : mv.movieId ∈ listIds
      (getList (setList u src ((getList u src).filter fun m => m.movieId != mv.movieId)) tgt)
  · rw [if_pos ((any_eq_mem_listIds _ _).2 h), if_pos h]
  · rw [if_neg (fun hc => h ((any_eq_mem_listIds _ _).1 hc)), if_neg h]

/-- Claim C7: for distinct lists, `handleMoveMovie` removes the item's id
from the source list and inserts the item into the target list only if its
id is not already present there; when the item is absent from the source
list, the call leaves the item present in the target list exactly once
(the call never throws — the embedding is a total function). The count
hypothesis says the target list does not already hold the id twice, which
is how every reachable app state looks. -/
theorem handleMoveMovie_spec (u : UserMovieList) (mv : Movie) (src tgt : ListName) :
    (src ≠ tgt →
      getList (handleMoveMovie u mv src tgt) src =
        ((getList u src).filter fun m => m.movieId != mv.movieId) ∧
      (mv.movieId ∈ listIds (getList u tgt) →
        getList (handleMoveMovie u mv src tgt) tgt = getList u tgt) ∧
      (mv.movieId ∉ listIds (getList u tgt) →
        getList (handleMoveMovie u mv src tgt) tgt = getList u tgt ++ [mv])) ∧
    (mv.movieId ∉ listIds (getList u src) →
      (listIds (getList u tgt)).count mv.movieId ≤ 1 →
      (listIds (getList (handleMoveMovie u mv src tgt) tgt)).count mv.movieId = 1) := by
  rw [handleMoveMovie_def]
  constructor
  · intro hne
    have htgt : getList (setList u src
        ((getList u src).filter fun m => m.movieId != mv.movieId)) tgt = getList u tgt := by
      rw [getList_setList, if_neg hne]
    rw [htgt]
    by_cases hmem : mv.movieId ∈ listIds (getList u tgt)
    · rw [if_pos hmem]
      refine ⟨by rw [getList_setList, if_pos rfl], fun _ => htgt, fun hno => absurd hmem hno⟩
    · rw [if_neg hmem]
      refine ⟨?_, fun hyes => absurd hyes hmem, fun _ => ?_⟩
      · rw [getList_setList, if_neg (Ne.symm hne), getList_setList, if_pos rfl]
      · rw [getList_setList, if_pos rfl]
  · intro habs hcnt
    have hfil : ((getList u src).filter fun m => m.movieId != mv.movieId) = getList u src :=
      filter_id_of_not_mem habs
    rw [hfil]
    by_cases heq : src = tgt
    · subst heq
      have h1 : getList (setList u src (getList u src)) src = getList u src := by
        rw [getList_setList, if_pos rfl]
      rw [h1, if_neg habs, getList_setList, if_pos rfl]
      have h0 : (listIds (getList u src)).count mv.movieId = 0 :=
        List.count_eq_zero.2 habs
      rw [show listIds (getList u src ++ [mv]) =
            listIds (getList u src) ++ [mv.movieId] by simp [listIds]]
      rw [List.count_append, h0]
      simp
    · have htgt : getList (setList u src (getList u src)) tgt = getList u tgt := by
        rw [getList_setList, if_neg heq]
      rw [htgt]
      by_cases hmem : mv.movieId ∈ listIds (getList u tgt)
      · rw [if_pos hmem, htgt]
        have h1 : (listIds (getList u tgt)).count mv.movieId ≠ 0 := by
          rw [Ne, List.count_eq_zero]
          exact fun hno => hno hmem
        omega
      · rw [if_neg hmem, getList_setList, if_pos rfl]
        have h0 : (listIds (getList u tgt)).count mv.movieId = 0 :=
          List.count_eq_zero.2 hmem
        rw [show listIds (getList u tgt ++ [mv]) =
              listIds (getList u tgt) ++ [mv.movieId] by simp [listIds]]
        rw [List.count_append, h0]
        simp

/-- Witness for the move theorem: moving a movie absent from the (empty)
source leaves it in the target exactly once. -/
theorem handleMoveMovie_spec_witness :
    (listIds (getList (handleMoveMovie ⟨[], [], []⟩ (mkMovie 1) ListName.liked ListName.saved)
        ListName.saved)).count (mkMovie 1).movieId = 1 :=
  (handleMoveMovie_spec ⟨[], [], []⟩ (mkMovie 1) .liked .saved).2 (by decide) (by decide)

/-- Adding an id twice is the same as adding it once. -/
theorem setAdd_idem (l : List Nat) (x : Nat) : setAdd (setAdd l x) x = setAdd l x :=
  setAdd_of_mem (mem_setAdd_self l x)

/-! ### Concrete event traces -/

/-- A fetch event whose response offers the movie with the given id. -/
def okEv (i : Nat) : Event := .fetch (.ok (mkMovie i) none)

/-- `n` rounds of "accept a fresh movie, then classify it as skip". -/
def fetchActPairs : Nat → List Event
  | 0 => []
  | n + 1 => fetchActPairs n ++ [okEv (n + 1), Event.act SwipeAct.skip]

/-- Fetch events offering the `n` consecutive ids starting at `start`. -/
def okEvs (start n : Nat) : List Event := (List.range n).map fun i => okEv (start + i)

/-- Accept movie 1 and like it, accept movies 2..51 (evicting id 1 from the
rolling window), then receive movie 1 again — now a duplicate, since id 1
is still a seen id. -/
def traceWindowOverflow : List Event :=
  [okEv 1, Event.act SwipeAct.like] ++ okEvs 2 50 ++ [okEv 1]

/-- Accept movie 1, then receive movie 1 five more times (each a
duplicate); the fifth duplicate exhausts the retry budget. -/
def dupAbortTrace : List Event := okEv 1 :: List.replicate 5 (okEv 1)

/-- The state after accepting movie 1 and liking it: id 1 is in the liked
list and in the rolling window, the attempt counter is 0 and no fetch is
in flight. -/
def dupStart : AppState := run initialState [okEv 1, Event.act SwipeAct.like]

/-! ### Claim C2: bounds of the rolling exclusion window -/

set_option maxRecDepth 100000 in
/-- Claim C2, counterexample. First trace: sixteen accept-then-classify
rounds leave the rolling window with 16 entries immediately after the 16th
classification — the classification-time trim only fires above 30 entries,
so the window is not reduced to 15. Second trace: a duplicate response
whose id is a seen id no longer in the window appends to the window with
no cap, pushing it to 51 entries at an observation point. -/
theorem recentWindow_overflow_concrete :
    ((run initialState (fetchActPairs 16)).recentlyFetchedIds.length = 16 ∧
      ¬ ((run initialState (fetchActPairs 16)).recentlyFetchedIds.length ≤ 15)) ∧
    ((run initialState traceWindowOverflow).recentlyFetchedIds.length = 51 ∧
      ¬ ((run initialState traceWindowOverflow).recentlyFetchedIds.length ≤ 50)) := by
  refine ⟨⟨by decide, by decide⟩, ⟨by decide, by decide⟩⟩

/-- Claim C2 (amended): the rolling exclusion window is trimmed to at most
50 entries on every acceptance (the duplicate path can exceed 50
transiently), and immediately after a successful classification it holds
at most 30 entries: it is unchanged when it held at most 30 entries, and
when it held more than 30 it is trimmed to exactly the 15 most recently
added identifiers in their original insertion order. -/
theorem recentWindow_bounds (s : AppState) (m : Movie) (uv : Option (List Int)) (a : SwipeAct) :
    (s.isLoading = false → s.fetchAttemptCount < maxFetchAttempts →
      m.movieId ∉ allExcludedIds s →
      (fetchNextMovie s (.ok m uv)).state.recentlyFetchedIds.length ≤ 50) ∧
    (s.currentMovie.isSome = true → s.isLoading = false →
      ((handleAction s a).1.recentlyFetchedIds.length ≤ 30 ∧
       (s.recentlyFetchedIds.length ≤ 30 →
         (handleAction s a).1.recentlyFetchedIds = s.recentlyFetchedIds) ∧
       (30 < s.recentlyFetchedIds.length →
         (handleAction s a).1.recentlyFetchedIds =
           s.recentlyFetchedIds.drop (s.recentlyFetchedIds.length - 15) ∧
         (handleAction s a).1.recentlyFetchedIds.length = 15))) := by
  constructor
  · intro h1 h2 h3
    have hg : ¬ (s.fetchAttemptCount ≥ maxFetchAttempts) := by omega
    simp [fetchNextMovie, h1, hg, h3]
    split_ifs with hlen
    · simp [List.length_drop]
      omega
    · omega
  · intro hsome h1
    rcases hs : s.currentMovie with _ | mv
    · rw [hs] at hsome; simp at hsome
    · have hnl : ¬ (s.isLoading = true) := by rw [h1]; exact Bool.false_ne_true
      unfold handleAction
      rw [hs]
      dsimp only
      rw [if_neg hnl]
      dsimp only
      split_ifs with hlen
      · exact ⟨by rw [List.length_drop]; omega, fun h30 => absurd hlen (by omega),
          fun h30 => ⟨rfl, by rw [List.length_drop]; omega⟩⟩
      · exact ⟨by omega, fun h30 => rfl, fun h30 => absurd h30 (by omega)⟩

/-- Witness for the window-bound theorem: a fresh acceptance from a state
displaying movie 1, and a classification from the same state. -/
theorem recentWindow_bounds_witness :
    (fetchNextMovie { initialState with currentMovie := some (mkMovie 1) }
        (.ok (mkMovie 2) none)).state.recentlyFetchedIds.length ≤ 50 ∧
    (handleAction { initialState with currentMovie := some (mkMovie 1) }
        SwipeAct.like).1.recentlyFetchedIds.length ≤ 30 :=
  ⟨(recentWindow_bounds { initialState with currentMovie := some (mkMovie 1) }
      (mkMovie 2) none SwipeAct.like).1 rfl (by decide) (by decide),
   ((recentWindow_bounds { initialState with currentMovie := some (mkMovie 1) }
      (mkMovie 2) none SwipeAct.like).2 rfl rfl).1⟩

/-! ### Claim C5: the fetch attempt counter -/

/-- One fetch cycle keeps the attempt counter within the budget. -/
theorem fetchNextMovie_attempt_le (s : AppState) (r : Response)
    (h : s.fetchAttemptCount ≤ 5) :
    (fetchNextMovie s r).state.fetchAttemptCount ≤ 5 := by
  unfold fetchNextMovie
  cases hb : s.isLoading
  · cases r <;> simp [hb, maxFetchAttempts] <;> split_ifs <;> simp <;> omega
  · simpa [hb] using h

/-- `handleAction` never touches the attempt counter. -/
theorem handleAction_attempt (s : AppState) (a : SwipeAct) :
    (handleAction s a).1.fetchAttemptCount = s.fetchAttemptCount := by
  unfold handleAction
  cases hc : s.currentMovie
  · rfl
  · cases hb : s.isLoading <;> simp [hb]

/-- Every event keeps the attempt counter within the budget. -/
theorem step_attempt_le (s : AppState) (e : Event) (h : s.fetchAttemptCount ≤ 5) :
    (step s e).fetchAttemptCount ≤ 5 := by
  cases e with
  | fetch r => exact fetchNextMovie_attempt_le s r h
  | act a => simpa [step, handleAction_attempt] using h
  | move mv src tgt => simpa [step] using h
  | remove mv src => simpa [step] using h
  | reset => simp [step, resetMovies]

/-- Every event run keeps the attempt counter within the budget. -/
theorem run_attempt_le (es : List Event) (s : AppState) (h : s.fetchAttemptCount ≤ 5) :
    (run s es).fetchAttemptCount ≤ 5 := by
  induction es generalizing s with
  | nil => simpa [run] using h
  | cons e es ih =>
      rw [run, List.foldl_cons]
      exact ih (step s e) (step_attempt_le s e h)

/-- Claim C5, counterexample: after the fifth consecutive duplicate the
orchestrator is in the max-attempts abort state — no candidate displayed —
yet the attempt counter holds 5, not 0; it is only reset by the guard at
the start of the next fetch cycle. -/
theorem fetchAttemptCount_abort_concrete :
    (run initialState dupAbortTrace).fetchAttemptCount = 5 ∧
    (run initialState dupAbortTrace).currentMovie = none ∧
    (5 : Nat) ≠ 0 := by
  refine ⟨by decide, by decide, by decide⟩

/-- Claim C5 (amended): the attempt counter always lies in [0, 5] (the
lower bound holds by type); it is reset to 0 on acceptance of a candidate
and on a fatal (transport or server-reported) error; the max-attempts
abort that ends the duplicate-retry budget leaves the counter at 5 with
the candidate cleared and no retry scheduled, and the counter is reset to
0 by the budget guard at the start of the next fetch cycle, which also
clears the cache and issues no request. -/
theorem fetchAttemptCount_range_and_resets (s : AppState) (es : List Event)
    (m : Movie) (uv : Option (List Int)) (msg : String) (r : Response) :
    (s.fetchAttemptCount ≤ 5 → (run s es).fetchAttemptCount ≤ 5) ∧
    (s.isLoading = false → maxFetchAttempts ≤ s.fetchAttemptCount →
      (fetchNextMovie s r).state.fetchAttemptCount = 0 ∧
      (fetchNextMovie s r).state.recentlyFetchedIds = [] ∧
      (fetchNextMovie s r).request = none) ∧
    (s.isLoading = false → s.fetchAttemptCount < maxFetchAttempts →
      m.movieId ∉ allExcludedIds s →
      (fetchNextMovie s (.ok m uv)).state.fetchAttemptCount = 0) ∧
    (s.isLoading = false → s.fetchAttemptCount < maxFetchAttempts →
      (fetchNextMovie s (.err msg)).state.fetchAttemptCount = 0 ∧
      (fetchNextMovie s .transportFailure).state.fetchAttemptCount = 0) ∧
    (s.isLoading = false → s.fetchAttemptCount = 4 →
      m.movieId ∈ allExcludedIds s →
      (fetchNextMovie s (.ok m uv)).state.fetchAttemptCount = 5 ∧
      (fetchNextMovie s (.ok m uv)).state.currentMovie = none ∧
      (fetchNextMovie s (.ok m uv)).retryDelay = none) := by
  refine ⟨fun h => run_attempt_le es s h, ?_, ?_, ?_, ?_⟩
  · intro h1 h2
    simp [fetchNextMovie, h1, h2]
  · intro h1 h2 h3
    have hg : ¬ (s.fetchAttemptCount ≥ maxFetchAttempts) := by omega
    simp [fetchNextMovie, h1, hg, h3]
  · intro h1 h2
    have hg : ¬ (s.fetchAttemptCount ≥ maxFetchAttempts) := by omega
    simp [fetchNextMovie, h1, hg]
  · intro h1 h2 h3
    simp [fetchNextMovie, maxFetchAttempts, h1, h2, h3]

/-- Witness for the attempt-counter theorem: an acceptance from the initial
state resets the counter, and the fifth duplicate leaves it at 5. -/
theorem fetchAttemptCount_range_and_resets_witness :
    (fetchNextMovie initialState (.ok (mkMovie 1) none)).state.fetchAttemptCount = 0 ∧
    (fetchNextMovie { initialState with fetchAttemptCount := 4, recentlyFetchedIds := [1] }
        (.ok (mkMovie 1) none)).state.fetchAttemptCount = 5 :=
  ⟨(fetchAttemptCount_range_and_resets initialState [] (mkMovie 1) none "e" .blank).2.2.1
      rfl (by decide) (by decide),
   ((fetchAttemptCount_range_and_resets
      { initialState with fetchAttemptCount := 4, recentlyFetchedIds := [1] }
      [] (mkMovie 1) none "e" .blank).2.2.2.2 rfl rfl (by decide)).1⟩

/-! ### Claim C1: the duplicate-retry scenario -/

/-- Claim C1, counterexample: in the concrete five-consecutive-duplicates
scenario the orchestrator does reach the empty state after exactly 5
attempts with no 6th automatic request, but the scheduled backoff delays
are 200, 400, 800, 1600 ms — four delays, not the claimed five-delay
sequence ending in 2000 ms: the fifth duplicate aborts immediately without
scheduling a further delay. -/
theorem fetchNextMovie_backoff_delays_concrete :
    (runRetry 10 dupStart (.ok (mkMovie 1) none)).2.1 = [200, 400, 800, 1600] ∧
    (runRetry 10 dupStart (.ok (mkMovie 1) none)).2.2 = 5 ∧
    (runRetry 10 dupStart (.ok (mkMovie 1) none)).1.currentMovie = none ∧
    [200, 400, 800, 1600] ≠ ([200, 400, 800, 1600, 2000] : List Nat) := by
  refine ⟨by decide, by decide, by decide, by decide⟩

/-- Claim C1 (amended): if five consecutive recommendation responses each
return a candidate whose id is already in the exclusion set sent with the
request, the orchestrator reaches the empty state (no displayed candidate)
after exactly 5 attempts — 5 requests are issued and no 6th automatic
request is scheduled — and the backoff delays between successive attempts
are 200, 400, 800, 1600 ms, each computed as min(200 × 2^(FetchAttempt−1),
2000) after the attempt counter is incremented; the fifth duplicate aborts
immediately with no further delay, so the 2000 ms value never occurs. -/
theorem fetchNextMovie_five_duplicates (s : AppState) (m : Movie)
    (h1 : s.isLoading = false) (h2 : s.fetchAttemptCount = 0)
    (h3 : m.movieId ∈ allExcludedIds s) :
    (runRetry 10 s (.ok m none)).2.2 = 5 ∧
    (runRetry 10 s (.ok m none)).2.1 = [200, 400, 800, 1600] ∧
    (runRetry 10 s (.ok m none)).2.1 =
      [min (200 * 2 ^ 0) 2000, min (200 * 2 ^ 1) 2000,
       min (200 * 2 ^ 2) 2000, min (200 * 2 ^ 3) 2000] ∧
    (runRetry 10 s (.ok m none)).1.currentMovie = none ∧
    (runRetry 10 s (.ok m none)).1.fetchAttemptCount = 5 := by
  obtain ⟨c, u, v, b, w, k, f⟩ := s
  dsimp only at h1 h2 h3 ⊢
  subst h1
  subst h2
  have hW : ∀ (c' : Option Movie) (v' : Option (List Int)) (k' : Nat),
      m.movieId ∈ allExcludedIds ⟨c', u, v', false, setAdd w m.movieId, k', f⟩ :=
    fun c' v' k' => mem_allExcludedIds_of_recent (mem_setAdd_self w m.movieId)
  have e1 : fetchNextMovie ⟨c, u, v, false, w, 0, f⟩ (.ok m none) =
      ⟨⟨c, u, v, false, setAdd w m.movieId, 1, f⟩,
       some (buildRequest ⟨c, u, v, false, w, 0, f⟩), some 200, none⟩ := by
    simp [fetchNextMovie, maxFetchAttempts, h3]
  have e2 : fetchNextMovie ⟨c, u, v, false, setAdd w m.movieId, 1, f⟩ (.ok m none) =
      ⟨⟨c, u, v, false, setAdd w m.movieId, 2, f⟩,
       some (buildRequest ⟨c, u, v, false, setAdd w m.movieId, 1, f⟩), some 400, none⟩ := by
    simp [fetchNextMovie, maxFetchAttempts, hW c v 1, setAdd_idem]
  have e3 : fetchNextMovie ⟨c, u, v, false, setAdd w m.movieId, 2, f⟩ (.ok m none) =
      ⟨⟨c, u, v, false, setAdd w m.movieId, 3, f⟩,
       some (buildRequest ⟨c, u, v, false, setAdd w m.movieId, 2, f⟩), some 800, none⟩ := by
    simp [fetchNextMovie, maxFetchAttempts, hW c v 2, setAdd_idem]
  have e4 : fetchNextMovie ⟨c, u, v, false, setAdd w m.movieId, 3, f⟩ (.ok m none) =
      ⟨⟨c, u, v, false, setAdd w m.movieId, 4, f⟩,
       some (buildRequest ⟨c, u, v, false, setAdd w m.movieId, 3, f⟩), some 1600, none⟩ := by
    simp [fetchNextMovie, maxFetchAttempts, hW c v 3, setAdd_idem]
  have e5 : fetchNextMovie ⟨c, u, v, false, setAdd w m.movieId, 4, f⟩ (.ok m none) =
      ⟨⟨none, u, v, false, setAdd w m.movieId, 5, f⟩,
       some (buildRequest ⟨c, u, v, false, setAdd w m.movieId, 4, f⟩), none, none⟩ := by
    simp [fetchNextMovie, maxFetchAttempts, hW c v 4, setAdd_idem]
  refine ⟨?_, ?_, ?_, ?_, ?_⟩ <;>
    simp only [runRetry, e1, e2, e3, e4, e5, Option.isSome_some, if_true] <;>
    norm_num

/-- Witness for the five-duplicates theorem at the concrete start state
that has movie 1 both liked and in the rolling window. -/
theorem fetchNextMovie_five_duplicates_witness :
    (runRetry 10 dupStart (.ok (mkMovie 1) none)).2.2 = 5 ∧
    (runRetry 10 dupStart (.ok (mkMovie 1) none)).1.fetchAttemptCount = 5 :=
  ⟨(fetchNextMovie_five_duplicates dupStart (mkMovie 1)
      (by decide) (by decide) (by decide)).1,
   (fetchNextMovie_five_duplicates dupStart (mkMovie 1)
      (by decide) (by decide) (by decide)).2.2.2.2⟩

/-! ### Claim C3: mutual exclusivity of the categorized lists -/

/-- No identifier is present in more than one of the three lists. -/
def exclusiveLists (u : UserMovieList) : Prop :=
  ∀ (i : Nat) (n1 n2 : ListName), n1 ≠ n2 →
    i ∈ listIds (getList u n1) → i ∉ listIds (getList u n2)

/-- The displayed candidate, if any, is not yet in any list. -/
def currentFresh (s : AppState) : Prop :=
  ∀ mv : Movie, s.currentMovie = some mv →
    ∀ n : ListName, mv.movieId ∉ listIds (getList s.userLists n)

/-- The inductive invariant behind the exclusivity of the lists. -/
def ListInv (s : AppState) : Prop := exclusiveLists s.userLists ∧ currentFresh s

/-- An event is a well-formed move when its source list contains the moved
item, which is the only call pattern the list view issues
(`MovieCardWithActions` always passes the list the card is rendered in). -/
def moveOk (s : AppState) : Event → Bool
  | .move mv src _ => (getList s.userLists src).any fun m => m.movieId == mv.movieId
  | _ => true

/-- Every move of the trace is well formed at the state where it runs. -/
def ValidMoves : AppState → List Event → Prop
  | _, [] => True
  | s, e :: es => moveOk s e = true ∧ ValidMoves (step s e) es

/-- An id outside the exclusion set is in none of the three lists. -/
theorem not_seen_of_not_excluded {s : AppState} {x : Nat}
    (h : x ∉ allExcludedIds s) (n : ListName) :
    x ∉ listIds (getList s.userLists n) := by
  intro hx
  apply h
  show x ∈ getAllSeenIds s ++ s.recentlyFetchedIds
  apply List.mem_append_left
  cases n <;>
  · simp only [listIds, getList] at hx
    simp only [getAllSeenIds, List.map_append, List.mem_append]
    tauto

/-- `ListInv` transfers to any state with the same lists whose candidate is
unchanged, cleared, or fresh. -/
theorem listInv_mk (s : AppState) (c : Option Movie) (v : Option (List Int)) (b : Bool)
    (w : List Nat) (k : Nat) (fl : FilterState) (h : ListInv s)
    (hc : c = s.currentMovie ∨ c = none ∨
      ∃ m, c = some m ∧ ∀ n, m.movieId ∉ listIds (getList s.userLists n)) :
    ListInv ⟨c, s.userLists, v, b, w, k, fl⟩ := by
  refine ⟨h.1, ?_⟩
  intro mv hmv n
  rcases hc with hc | hc | ⟨m0, hm0, hf⟩
  · exact h.2 mv (by rw [← hc]; exact hmv) n
  · rw [hc] at hmv; exact absurd hmv (by simp)
  · rw [hm0] at hmv
    injection hmv with hh
    rw [← hh]
    exact hf n

/-- Every fetch outcome preserves the invariant. -/
theorem fetchNextMovie_listInv (s : AppState) (r : Response) (h : ListInv s) :
    ListInv (fetchNextMovie s r).state := by
  unfold fetchNextMovie
  split
  · exact h
  · split
    · exact listInv_mk s none s.userVector false [] 0 s.filters h (Or.inr (Or.inl rfl))
    · dsimp only
      split
      · exact listInv_mk s none s.userVector false s.recentlyFetchedIds 0 s.filters h
          (Or.inr (Or.inl rfl))
      · split
        · split
          · exact listInv_mk s none s.userVector false _ _ s.filters h (Or.inr (Or.inl rfl))
          · exact listInv_mk s s.currentMovie s.userVector false _ _ s.filters h (Or.inl rfl)
        · next m uv hmem =>
            exact listInv_mk s (some m) _ false _ 0 s.filters h
              (Or.inr (Or.inr ⟨m, rfl, fun n => not_seen_of_not_excluded hmem n⟩))
      · exact listInv_mk s s.currentMovie s.userVector false s.recentlyFetchedIds
          s.fetchAttemptCount s.filters h (Or.inl rfl)
      · exact listInv_mk s none s.userVector false s.recentlyFetchedIds 0 s.filters h
          (Or.inr (Or.inl rfl))

/-- Appending a fresh movie to one list keeps the lists exclusive. -/
theorem exclusiveLists_append (u : UserMovieList) (mv : Movie) (tn : ListName)
    (hu : exclusiveLists u) (hf : ∀ n, mv.movieId ∉ listIds (getList u n)) :
    exclusiveLists (setList u tn (getList u tn ++ [mv])) := by
  intro i n1 n2 hne h1 h2
  rw [getList_setList] at h1 h2
  by_cases e1 : tn = n1 <;> by_cases e2 : tn = n2
  · exact hne (e1 ▸ e2)
  · rw [if_pos e1] at h1
    rw [if_neg e2] at h2
    rcases (mem_listIds_append _ _ _).1 h1 with h1' | rfl
    · exact (hu i n1 n2 hne (e1 ▸ h1')) h2
    · exact (hf n2) h2
  · rw [if_neg e1] at h1
    rw [if_pos e2] at h2
    rcases (mem_listIds_append _ _ _).1 h2 with h2' | rfl
    · exact (hu i n1 n2 hne h1) (e2 ▸ h2')
    · exact (hf n1) h1
  · rw [if_neg e1] at h1
    rw [if_neg e2] at h2
    exact (hu i n1 n2 hne h1) h2

/-- Classification preserves the invariant. -/
theorem handleAction_listInv (s : AppState) (a : SwipeAct) (h : ListInv s) :
    ListInv (handleAction s a).1 := by
  unfold handleAction
  cases hc : s.currentMovie with
  | none => exact h
  | some mv =>
    dsimp only
    split
    · exact h
    · have hfresh : ∀ n, mv.movieId ∉ listIds (getList s.userLists n) := h.2 mv hc
      refine ⟨?_, ?_⟩
      · cases a
        · exact exclusiveLists_append s.userLists mv .liked h.1 hfresh
        · exact exclusiveLists_append s.userLists mv .disliked h.1 hfresh
        · exact h.1
        · exact exclusiveLists_append s.userLists mv .saved h.1 hfresh
      · intro mv0 hmv0
        exact absurd hmv0 (by simp)

/-- After a move, each list is the original, the original filtered by the
moved id, or (for the target) one of those with the moved movie appended;
the unchanged-original case only arises for lists other than the source. -/
theorem getList_move_cases (u : UserMovieList) (mv : Movie) (src tgt n : ListName) :
    (n ≠ src ∧ getList (handleMoveMovie u mv src tgt) n = getList u n) ∨
    (getList (handleMoveMovie u mv src tgt) n =
      ((getList u n).filter fun m => m.movieId != mv.movieId)) ∨
    (n = tgt ∧ ∃ l, getList (handleMoveMovie u mv src tgt) n = l ++ [mv] ∧
      (l = getList u n ∨ l = ((getList u n).filter fun m => m.movieId != mv.movieId))) := by
  rw [handleMoveMovie_def]
  by_cases hc : mv.movieId ∈ listIds
      (getList (setList u src ((getList u src).filter fun m => m.movieId != mv.movieId)) tgt)
  · rw [if_pos hc, getList_setList]
    by_cases hsn : src = n
    · subst hsn
      rw [if_pos rfl]
      exact Or.inr (Or.inl rfl)
    · rw [if_neg hsn]
      exact Or.inl ⟨fun hn => hsn hn.symm, rfl⟩
  · rw [if_neg hc, getList_setList]
    by_cases htn : tgt = n
    · rw [if_pos htn]
      refine Or.inr (Or.inr ⟨htn.symm, _, rfl, ?_⟩)
      rw [getList_setList]
      by_cases hst : src = tgt
      · rw [if_pos hst]
        right
        rw [hst, htn]
      · rw [if_neg hst]
        left
        rw [htn]
    · rw [if_neg htn, getList_setList]
      by_cases hsn : src = n
      · subst hsn
        rw [if_pos rfl]
        exact Or.inr (Or.inl rfl)
      · rw [if_neg hsn]
        exact Or.inl ⟨fun hn => hsn hn.symm, rfl⟩

/-- Membership of an id other than the moved one is untouched by a move. -/
theorem mem_move_ne (u : UserMovieList) (mv : Movie) (src tgt n : ListName) (i : Nat)
    (hi : i ≠ mv.movieId) :
    i ∈ listIds (getList (handleMoveMovie u mv src tgt) n) ↔
      i ∈ listIds (getList u n) := by
  rcases getList_move_cases u mv src tgt n with ⟨-, heq⟩ | heq | ⟨-, l, heq, hor⟩
  · rw [heq]
  · rw [heq, mem_listIds_filter]
    exact ⟨fun h => h.1, fun h => ⟨h, hi⟩⟩
  · rw [heq, mem_listIds_append]
    rcases hor with rfl | rfl
    · constructor
      · rintro (h | h)
        · exact h
        · exact absurd h hi
      · exact fun h => Or.inl h
    · rw [mem_listIds_filter]
      constructor
      · rintro (⟨h, -⟩ | h)
        · exact h
        · exact absurd h hi
      · exact fun h => Or.inl ⟨h, hi⟩

/-- Where the moved id can be found after a move. -/
theorem mem_move_id (u : UserMovieList) (mv : Movie) (src tgt n : ListName)
    (h : mv.movieId ∈ listIds (getList (handleMoveMovie u mv src tgt) n)) :
    n = tgt ∨ (n ≠ src ∧ mv.movieId ∈ listIds (getList u n)) := by
  rcases getList_move_cases u mv src tgt n with ⟨hns, heq⟩ | heq | ⟨htgt, -, -, -⟩
  · rw [heq] at h
    exact Or.inr ⟨hns, h⟩
  · rw [heq, mem_listIds_filter] at h
    exact absurd rfl h.2
  · exact Or.inl htgt

/-- A move introduces no id other than the moved one. -/
theorem mem_move_subset (u : UserMovieList) (mv : Movie) (src tgt n : ListName) (i : Nat)
    (h : i ∈ listIds (getList (handleMoveMovie u mv src tgt) n)) :
    i = mv.movieId ∨ i ∈ listIds (getList u n) := by
  by_cases hi : i = mv.movieId
  · exact Or.inl hi
  · exact Or.inr ((mem_move_ne u mv src tgt n i hi).1 h)

/-- A move whose source contains the moved item keeps the lists exclusive. -/
theorem handleMoveMovie_exclusive (u : UserMovieList) (mv : Movie) (src tgt : ListName)
    (hu : exclusiveLists u) (hsrc : mv.movieId ∈ listIds (getList u src)) :
    exclusiveLists (handleMoveMovie u mv src tgt) := by
  intro i n1 n2 hne h1 h2
  by_cases hi : i = mv.movieId
  · subst hi
    rcases mem_move_id u mv src tgt n1 h1 with h1t | ⟨hn1s, hm1⟩
    · rcases mem_move_id u mv src tgt n2 h2 with h2t | ⟨hn2s, hm2⟩
      · exact hne (h1t.trans h2t.symm)
      · exact (hu mv.movieId src n2 (fun hh => hn2s hh.symm) hsrc) hm2
    · rcases mem_move_id u mv src tgt n2 h2 with h2t | ⟨hn2s, hm2⟩
      · exact (hu mv.movieId src n1 (fun hh => hn1s hh.symm) hsrc) hm1
      · exact (hu mv.movieId n1 n2 hne hm1) hm2
  · exact (hu i n1 n2 hne ((mem_move_ne u mv src tgt n1 i hi).1 h1))
      ((mem_move_ne u mv src tgt n2 i hi).1 h2)

/-- A removal only shrinks lists. -/
theorem mem_remove_subset (u : UserMovieList) (mv : Movie) (src n : ListName) (i : Nat)
    (h : i ∈ listIds (getList (handleRemoveMovie u mv src) n)) :
    i ∈ listIds (getList u n) := by
  unfold handleRemoveMovie at h
  rw [getList_setList] at h
  by_cases hsn : src = n
  · rw [if_pos hsn] at h
    exact hsn ▸ ((mem_listIds_filter _ _ _).1 h).1
  · rwa [if_neg hsn] at h

/-- A removal keeps the lists exclusive. -/
theorem handleRemoveMovie_exclusive (u : UserMovieList) (mv : Movie) (src : ListName)
    (hu : exclusiveLists u) :
    exclusiveLists (handleRemoveMovie u mv src) := by
  intro i n1 n2 hne h1 h2
  exact (hu i n1 n2 hne (mem_remove_subset u mv src n1 i h1))
    (mem_remove_subset u mv src n2 i h2)

/-- Every well-formed event preserves the invariant. -/
theorem step_listInv (s : AppState) (e : Event) (h : ListInv s)
    (hok : moveOk s e = true) :
    ListInv (step s e) := by
  cases e with
  | fetch r => exact fetchNextMovie_listInv s r h
  | act a => exact handleAction_listInv s a h
  | move mv src tgt =>
      simp only [moveOk] at hok
      have hsrc : mv.movieId ∈ listIds (getList s.userLists src) :=
        (any_eq_mem_listIds _ _).1 hok
      refine ⟨handleMoveMovie_exclusive s.userLists mv src tgt h.1 hsrc, ?_⟩
      intro mv0 hm n hmem
      rcases mem_move_subset s.userLists mv src tgt n mv0.movieId hmem with heq | hmem'
      · exact (h.2 mv0 hm src) (heq ▸ hsrc)
      · exact (h.2 mv0 hm n) hmem'
  | remove mv src =>
      refine ⟨handleRemoveMovie_exclusive s.userLists mv src h.1, ?_⟩
      intro mv0 hm n hmem
      exact (h.2 mv0 hm n) (mem_remove_subset s.userLists mv src n mv0.movieId hmem)
  | reset =>
      refine ⟨h.1, ?_⟩
      intro mv0 hm
      exact absurd hm (by simp [step, resetMovies])

/-- Every run of well-formed events preserves the invariant. -/
theorem run_listInv (es : List Event) (s : AppState) (h : ListInv s)
    (hv : ValidMoves s es) :
    ListInv (run s es) := by
  induction es generalizing s with
  | nil => simpa [run] using h
  | cons e es ih =>
      obtain ⟨h1, hv2⟩ := hv
      rw [run, List.foldl_cons]
      exact ih (step s e) (step_listInv s e h h1) hv2

/-- The initial state satisfies the invariant. -/
theorem listInv_initial : ListInv initialState := by
  constructor
  · intro i n1 n2 hne h1
    cases n1 <;> simp [initialState, getList, listIds] at h1
  · intro mv hm
    exact absurd hm (by simp [initialState])

/-- Claim C3, counterexample: starting from exclusive lists with movie 1 in
`liked` only, a single `handleMoveMovie` call that names `saved` as the
source — permitted by the handler, which is safe on absent items — leaves
id 1 present in both `liked` and `disliked`. -/
theorem categorizedLists_move_stale_source_concrete :
    exclusiveLists ⟨[mkMovie 1], [], []⟩ ∧
    1 ∈ listIds (handleMoveMovie ⟨[mkMovie 1], [], []⟩ (mkMovie 1)
      ListName.saved ListName.disliked).liked ∧
    1 ∈ listIds (handleMoveMovie ⟨[mkMovie 1], [], []⟩ (mkMovie 1)
      ListName.saved ListName.disliked).disliked := by
  refine ⟨?_, by decide, by decide⟩
  intro i n1 n2 hne h1
  cases n1 <;> cases n2 <;> simp_all [getList, listIds, mkMovie]

/-- Claim C3 (amended): for every sequence of events — classifications,
moves, removals, fetches and resets — in which every move names a source
list containing the moved item (the only call pattern the list view
issues), no identifier is present in more than one of {liked, saved,
disliked} at any observation point: the invariant holds after every run
from any state satisfying it, in particular from the initial state. -/
theorem categorizedLists_exclusive_of_validMoves (s : AppState) (es : List Event)
    (h : ListInv s) (hv : ValidMoves s es) :
    exclusiveLists (run s es).userLists := (run_listInv es s h hv).1

/-- Witness: a fetch, a like and a well-formed move keep the lists
exclusive. -/
theorem categorizedLists_exclusive_of_validMoves_witness :
    exclusiveLists (run initialState [okEv 1, Event.act SwipeAct.like,
      Event.move (mkMovie 1) ListName.liked ListName.saved]).userLists :=
  categorizedLists_exclusive_of_validMoves initialState
    [okEv 1, Event.act SwipeAct.like, Event.move (mkMovie 1) ListName.liked ListName.saved]
    listInv_initial
    (by simp only [ValidMoves, step]
        exact ⟨rfl, rfl, by decide, trivial⟩)
